import Mathlib

/-!
Verification development for the worker-orchestration core of the
force.ai repository (saas-platform server and admin-webapp).

The definitions below are a shallow embedding of the JavaScript source:

* `saas-platform/server/services/TaskManager.js` (task queue, scheduler,
  completion, retry, cancel),
* `saas-platform/server/services/WorkerManager.js` (worker lifecycle,
  assignment, heartbeat sweep, disconnect handling),
* `saas-platform/server/routes/workers.js` (connection-code registration,
  status route),
* `admin-webapp/lib/credentialStore.js` and
  `admin-webapp/lib/messageRouter.js` / `workerManager.js`
  (credential broker, MVP registration).

Database rows become Lean structures, SQL updates become list maps,
timestamps are naturals, and one workspace (tenant) is modelled: every
query in the embedded routines is keyed by a single workspace in the
source, so the per-tenant behaviour is captured by one tenant's state.
Side effects that no claim touches (logging, usage metrics, socket
notifications, the average-execution-time column) are not modelled.
-/

namespace Orch

/-- Task priorities, column `tasks.priority` (VARCHAR in the schema). -/
inductive Priority
  | urgent
  | high
  | normal
  | low
deriving DecidableEq, Repr

/-- Task statuses, column `tasks.status`. -/
inductive TaskStatus
  | pending
  | assigned
  | running
  | completed
  | failed
  | cancelled
deriving DecidableEq, Repr

/-- Worker statuses, column `workers.status`. -/
inductive WorkerStatus
  | offline
  | online
  | busy
  | error
deriving DecidableEq, Repr

/-- The `priorityOrder` object literal of `TaskManager.addTaskToQueue`:
`{ urgent: 0, high: 1, normal: 2, low: 3 }`. -/
def priorityOrder : Priority → Nat
  | .urgent => 0
  | .high => 1
  | .normal => 2
  | .low => 3

/-- The rank `addTaskToQueue` actually computes:
`priorityOrder[task.priority] || 2`.  JavaScript's `||` yields the
right operand when the left is falsy, and `0` is falsy, so `urgent`'s
`0` collapses to `2` — the same rank as `normal`, below `high`. -/
def effectiveRank (p : Priority) : Nat :=
  if priorityOrder p == 0 then 2 else priorityOrder p

/-- A row of the `tasks` table (the columns the orchestration core reads
or writes).  `filter_capabilities` is `worker_filter.capabilities`. -/
structure Task where
  id : Nat
  priority : Priority
  status : TaskStatus
  assigned_worker_id : Option Nat
  result : Option String
  error_message : Option String
  retry_count : Nat
  max_retries : Nat
  filter_capabilities : List String
  created_at : Nat
  assigned_at : Option Nat
  started_at : Option Nat
  completed_at : Option Nat
deriving DecidableEq, Repr

/-- A row of the `workers` table (the columns the orchestration core
reads or writes). -/
structure Worker where
  id : Nat
  status : WorkerStatus
  total_tasks_completed : Nat
  last_seen : Nat
  capabilities : List String
deriving DecidableEq, Repr

/-- One workspace's persisted rows plus the in-memory queue that
`TaskManager` keeps for it (`this.taskQueue.get(workspaceId)`). -/
structure DbState where
  tasks : List Task
  workers : List Worker
  queue : List Task
deriving DecidableEq, Repr

/-- `UPDATE tasks SET ... WHERE id = tid` applied through a row
transformer. -/
def updateTask (tid : Nat) (f : Task → Task) (ts : List Task) : List Task :=
  ts.map fun t => if t.id == tid then f t else t

/-- `UPDATE workers SET ... WHERE id = wid` applied through a row
transformer. -/
def updateWorker (wid : Nat) (f : Worker → Worker) (ws : List Worker) : List Worker :=
  ws.map fun w => if w.id == wid then f w else w

/-- `SELECT ... FROM tasks WHERE id = tid` (first row). -/
def getTask? (s : DbState) (tid : Nat) : Option Task :=
  s.tasks.find? fun t => t.id == tid

/-- `SELECT ... FROM workers WHERE id = wid` (first row). -/
def getWorker? (s : DbState) (wid : Nat) : Option Worker :=
  s.workers.find? fun w => w.id == wid

/-- `TaskManager.addTaskToQueue`: walk the queue and splice the task in
before the first entry whose effective rank is strictly larger
(`taskPriority < queueTaskPriority`, both computed with the `|| 2`
fallback), else append at the end. -/
def insertByPriority (q : List Task) (t : Task) : List Task :=
  match q with
  | [] => [t]
  | x :: rest =>
    if effectiveRank t.priority < effectiveRank x.priority then
      t :: x :: rest
    else
      x :: insertByPriority rest t

/-- The queue obtained by enqueuing a list of tasks in submission order
through `addTaskToQueue`. -/
def buildQueue (ts : List Task) : List Task :=
  ts.foldl insertByPriority []

/-- `TaskManager.createTask`: `INSERT INTO tasks ... DEFAULT status
'pending'` followed by `addTaskToQueue`. -/
def createTask (s : DbState) (tid : Nat) (prio : Priority) (maxRetries : Nat)
    (caps : List String) (now : Nat) : DbState :=
  let t : Task :=
    { id := tid
      priority := prio
      status := .pending
      assigned_worker_id := none
      result := none
      error_message := none
      retry_count := 0
      max_retries := maxRetries
      filter_capabilities := caps
      created_at := now
      assigned_at := none
      started_at := none
      completed_at := none }
  { s with tasks := s.tasks ++ [t], queue := insertByPriority s.queue t }

/-- Comparison used by `WorkerManager.getAvailableWorkers`'s
`ORDER BY total_tasks_completed ASC, last_seen DESC`. -/
def workerBefore (a b : Worker) : Bool :=
  decide (a.total_tasks_completed < b.total_tasks_completed) ||
    (a.total_tasks_completed == b.total_tasks_completed &&
      decide (b.last_seen ≤ a.last_seen))

/-- Insertion step of the sort realising the `ORDER BY` above. -/
def insertWorkerSorted (w : Worker) : List Worker → List Worker
  | [] => [w]
  | x :: rest =>
    if workerBefore w x then w :: x :: rest else x :: insertWorkerSorted w rest

/-- Sort realising `ORDER BY total_tasks_completed ASC, last_seen DESC`. -/
def sortWorkers : List Worker → List Worker
  | [] => []
  | w :: rest => insertWorkerSorted w (sortWorkers rest)

/-- `WorkerManager.getAvailableWorkers`: workers of the workspace with
`status = 'online'` whose `capabilities` contain the requested ones
(`capabilities @> filter`), in load-balancing order. -/
def getAvailableWorkers (ws : List Worker) (caps : List String) : List Worker :=
  sortWorkers (ws.filter fun w =>
    w.status == WorkerStatus.online && caps.all fun c => w.capabilities.contains c)

/-- The two store writes of `WorkerManager.assignTaskToWorker`:
`UPDATE tasks SET assigned_worker_id = $1, status = 'assigned',
assigned_at = NOW() WHERE id = $3` (no condition on the current status)
and `UPDATE workers SET status = 'busy' WHERE id = $2`. -/
def assignUpdate (s : DbState) (tid wid now : Nat) : DbState :=
  { s with
    tasks := updateTask tid
      (fun u => { u with status := .assigned, assigned_worker_id := some wid,
                         assigned_at := some now }) s.tasks
    workers := updateWorker wid (fun w => { w with status := .busy }) s.workers }

/-- The scheduler's double check before assignment:
`SELECT id FROM tasks WHERE id = $1 AND status = 'pending'`. -/
def taskStillPending (s : DbState) (tid : Nat) : Bool :=
  (s.tasks.find? fun t => t.id == tid && t.status == TaskStatus.pending).isSome

/-- `WorkerManager.assignTaskToWorker`: refetch the available workers,
take the first (fewest tasks completed), and perform the two updates. -/
def assignTaskToWorker (s : DbState) (t : Task) (now : Nat) :
    Option Worker × DbState :=
  match getAvailableWorkers s.workers t.filter_capabilities with
  | [] => (none, s)
  | w :: _ => (some w, assignUpdate s t.id w.id now)

/-- One iteration of the loop in `TaskManager.startTaskProcessor`:
shift the queue head, drop it if the database row is no longer
`pending`, otherwise assign it; if no worker is available the task is
unshifted back (queue unchanged). -/
def tickStep (s : DbState) (now : Nat) : DbState :=
  match s.queue with
  | [] => s
  | t :: rest =>
    if taskStillPending s t.id then
      match assignTaskToWorker s t now with
      | (some _, s') => { s' with queue := rest }
      | (none, _) => s
    else
      { s with queue := rest }

/-- `TaskManager.completeTask`: one unconditional
`UPDATE tasks SET status, result, error_message, completed_at = NOW()
WHERE id = $5 RETURNING assigned_worker_id`; then, when the returned
row has a worker, `UPDATE workers SET status = 'online'` — with
`total_tasks_completed = total_tasks_completed + 1` when the reported
status is `completed`. -/
def completeTask (s : DbState) (tid : Nat) (st : TaskStatus)
    (res err : Option String) (now : Nat) : DbState :=
  match getTask? s tid with
  | none => s
  | some t0 =>
    let tasks' := updateTask tid
      (fun u => { u with status := st, result := res, error_message := err,
                         completed_at := some now }) s.tasks
    match t0.assigned_worker_id with
    | some wid =>
      if st == TaskStatus.completed then
        { s with tasks := tasks'
                 workers := updateWorker wid
                   (fun w => { w with status := .online,
                                      total_tasks_completed := w.total_tasks_completed + 1 })
                   s.workers }
      else
        { s with tasks := tasks'
                 workers := updateWorker wid (fun w => { w with status := .online }) s.workers }
    | none => { s with tasks := tasks' }

/-- The row transformer of `TaskManager.retryTask`'s reset update. -/
def retryReset (u : Task) : Task :=
  { u with status := .pending, assigned_worker_id := none, result := none,
           error_message := none, retry_count := u.retry_count + 1,
           assigned_at := none, started_at := none, completed_at := none }

/-- `TaskManager.retryTask`: throws when the task is missing or
`retry_count >= max_retries`; otherwise resets the row to `pending` with
`retry_count + 1`, refetches it and re-enqueues through
`addTaskToQueue`. -/
def retryTask (s : DbState) (tid : Nat) : Except String DbState :=
  match getTask? s tid with
  | none => .error "Task not found"
  | some t =>
    if t.max_retries ≤ t.retry_count then
      .error "Maximum retries exceeded"
    else
      let tasks' := updateTask tid retryReset s.tasks
      match tasks'.find? (fun u => u.id == tid) with
      | none => .error "Task not found"
      | some u => .ok { s with tasks := tasks', queue := insertByPriority s.queue u }

/-- `TaskManager.cancelTask`: conditional update
`SET status = 'cancelled' ... WHERE id = $1 AND status IN
('pending','assigned') RETURNING assigned_worker_id`; on success the
assigned worker (if any) is set back to `online` and the task is
spliced out of the in-memory queue. -/
def cancelTask (s : DbState) (tid now : Nat) : DbState :=
  match s.tasks.find? (fun t =>
      t.id == tid && (t.status == TaskStatus.pending || t.status == TaskStatus.assigned)) with
  | none => s
  | some t0 =>
    let tasks' := s.tasks.map fun u =>
      if u.id == tid && (u.status == TaskStatus.pending || u.status == TaskStatus.assigned) then
        { u with status := .cancelled, error_message := some "Cancelled by user",
                 completed_at := some now }
      else u
    let workers' :=
      match t0.assigned_worker_id with
      | some wid => updateWorker wid (fun w => { w with status := .online }) s.workers
      | none => s.workers
    { tasks := tasks', workers := workers',
      queue := s.queue.eraseP fun u => u.id == tid }

/-- `WorkerManager.cancelWorkerTasks`: every task of the worker with
status `assigned` or `running` is updated to `failed` with
error message `'Worker disconnected unexpectedly'`. -/
def cancelWorkerTasks (s : DbState) (wid now : Nat) : DbState :=
  { s with tasks := s.tasks.map fun t =>
      if t.assigned_worker_id == some wid &&
          (t.status == TaskStatus.assigned || t.status == TaskStatus.running) then
        { t with status := .failed,
                 error_message := some "Worker disconnected unexpectedly",
                 completed_at := some now }
      else t }

/-- `WorkerManager.setWorkerOffline` (socket disconnect): mark the
worker `offline`, then `cancelWorkerTasks`. -/
def setWorkerOffline (s : DbState) (wid now : Nat) : DbState :=
  cancelWorkerTasks
    { s with workers := updateWorker wid (fun w => { w with status := .offline }) s.workers }
    wid now

/-- Staleness test of `WorkerManager.startPeriodicCleanup`:
`now - lastHeartbeat > inactiveThreshold` on the in-memory heartbeat
map. -/
def heartbeatStale (hbs : List (Nat × Nat)) (now thresh wid : Nat) : Bool :=
  match hbs.lookup wid with
  | some hb => decide (thresh < now - hb)
  | none => false

/-- The heartbeat part of `WorkerManager.startPeriodicCleanup`: for each
stale worker, `UPDATE workers SET status = 'offline' WHERE id = $2 AND
status != 'offline'`.  The tasks table is not touched. -/
def sweep (s : DbState) (hbs : List (Nat × Nat)) (now thresh : Nat) : DbState :=
  { s with workers := s.workers.map fun w =>
      if heartbeatStale hbs now thresh w.id && !(w.status == WorkerStatus.offline) then
        { w with status := .offline }
      else w }

/-- A row of `worker_connection_codes` (the columns read or written by
the registration flow). -/
structure ConnCode where
  max_uses : Nat
  used_count : Nat
  expires_at : Nat
deriving DecidableEq, Repr

/-- Outcome of `POST /workers/connect`: `success` (201), `invalidCode`
('Invalid Connection Code' — unknown or expired), `exhausted`
('Connection Code Exhausted'). -/
inductive RegOutcome
  | success
  | invalidCode
  | exhausted
deriving DecidableEq, Repr

/-- The decision `POST /workers/connect` takes from the code row it
read: the `SELECT ... WHERE code = $1 AND expires_at > NOW()` yields no
row when the code is unknown or expired; then JavaScript checks
`used_count >= max_uses`. -/
def codeDecision (snap : Option ConnCode) (now : Nat) : RegOutcome :=
  match snap with
  | none => .invalidCode
  | some cc =>
    if cc.expires_at ≤ now then .invalidCode
    else if cc.max_uses ≤ cc.used_count then .exhausted
    else .success

/-- The transaction body of `POST /workers/connect`: create the worker
and run `UPDATE worker_connection_codes SET used_count = used_count + 1
WHERE id = $1` — an unconditional increment. -/
def consumeCode (code : Option ConnCode) : Option ConnCode :=
  code.map fun cc => { cc with used_count := cc.used_count + 1 }

/-- One whole `POST /workers/connect` request run without interleaving:
read, decide, and (on success) consume. -/
def registerSequential (code : Option ConnCode) (now : Nat) :
    Option ConnCode × RegOutcome :=
  match codeDecision code now with
  | .success => (consumeCode code, .success)
  | r => (code, r)

/-- `k` registration requests served one after the other. -/
def runRegisterCalls (code : Option ConnCode) (now : Nat) :
    Nat → Option ConnCode × List RegOutcome
  | 0 => (code, [])
  | Nat.succ k =>
    let p := registerSequential code now
    let q := runRegisterCalls p.1 now k
    (q.1, p.2 :: q.2)

/-- Progress of one in-flight `POST /workers/connect` request: it first
reads the code row (taking a snapshot), then commits its decision. -/
inductive RegPhase
  | start
  | validated (snap : Option ConnCode)
  | done (o : RegOutcome)
deriving DecidableEq, Repr

/-- The shared code row plus each concurrent request's phase. -/
structure RegSystem where
  code : Option ConnCode
  threads : List RegPhase
deriving DecidableEq, Repr

/-- One database round-trip of one request.  The validation reads the
current row; the commit applies `codeDecision` to the request's own
snapshot and, on success, runs the unconditional increment against the
current row — exactly the read-then-write split of the source. -/
def regMicroStep (code : Option ConnCode) (now : Nat) :
    RegPhase → Option ConnCode × RegPhase
  | .start => (code, .validated code)
  | .validated snap =>
    match codeDecision snap now with
    | .success => (consumeCode code, .done .success)
    | r => (code, .done r)
  | .done o => (code, .done o)

/-- Let thread `i` take its next micro-step. -/
def regSchedStep (sys : RegSystem) (now i : Nat) : RegSystem :=
  match sys.threads.get? i with
  | none => sys
  | some ph =>
    let p := regMicroStep sys.code now ph
    { code := p.1, threads := sys.threads.set i p.2 }

/-- Run an interleaving given by a schedule of thread indices. -/
def regRunSched (sys : RegSystem) (now : Nat) : List Nat → RegSystem
  | [] => sys
  | i :: rest => regRunSched (regSchedStep sys now i) now rest

/-- A `workers` row as `PUT /workers/:id/status` sees it: `status` is
a plain `VARCHAR(50)` column with no CHECK constraint, so it can hold
any string.  (`last_heartbeat` is represented by `last_seen`; nothing
in the embedded core reads the column.) -/
structure WorkerRow where
  id : Nat
  status : String
  last_seen : Nat
deriving DecidableEq, Repr

/-- Reply of `PUT /workers/:id/status`: the route either answers 403
(`Forbidden`) or 200 echoing the requested status.  The
`body('status').isIn([...])` chain only annotates the request; the
handler never calls `validationResult`, so no 400 path exists. -/
inductive StatusUpdateResult
  | ok (st : String)
  | forbidden
deriving DecidableEq, Repr

/-- `PUT /workers/:id/status`: reject only a mismatched worker id
(403); otherwise run the unconditional `UPDATE workers SET
status = $1, last_seen = NOW(), last_heartbeat = NOW() WHERE id = $2`
with whatever string was requested — the previous status is never
consulted and the value is never validated. -/
def putWorkerStatus (ws : List WorkerRow) (authWorkerId pathWorkerId : Nat)
    (requested : String) (now : Nat) : List WorkerRow × StatusUpdateResult :=
  if authWorkerId ≠ pathWorkerId then (ws, .forbidden)
  else
    (ws.map fun w =>
      if w.id == pathWorkerId then { w with status := requested, last_seen := now }
      else w,
      .ok requested)

/-- The operations of the orchestration core that the task/worker
invariants quantify over: submission, a scheduler assignment step, a
worker-reported completion (`task_complete` delivers `completed` or
`failed`), an admin cancellation, and loss of a worker. -/
inductive Reachable : DbState → Prop
  | init (ws : List Worker) : Reachable { tasks := [], workers := ws, queue := [] }
  | submit {s} (tid : Nat) (prio : Priority) (mr : Nat) (caps : List String) (now : Nat) :
      Reachable s → Reachable (createTask s tid prio mr caps now)
  | tick {s} (now : Nat) : Reachable s → Reachable (tickStep s now)
  | complete {s} (tid : Nat) (st : TaskStatus) (res err : Option String) (now : Nat) :
      st = .completed ∨ st = .failed →
      Reachable s → Reachable (completeTask s tid st res err now)
  | cancel {s} (tid now : Nat) : Reachable s → Reachable (cancelTask s tid now)
  | workerLost {s} (wid now : Nat) : Reachable s → Reachable (setWorkerOffline s wid now)

/-- "A task's `status` is `assigned` or `running` only if its
`assigned_worker_id` is non-null", as a predicate on the tasks table. -/
def inFlightTasksOk (ts : List Task) : Prop :=
  ∀ t ∈ ts, t.status = TaskStatus.assigned ∨ t.status = TaskStatus.running →
    t.assigned_worker_id ≠ none

/-- The half of the spec's task/worker linkage invariant that the code
maintains. -/
def inFlightHasWorker (s : DbState) : Prop :=
  inFlightTasksOk s.tasks

/-- The spec's full task/worker linkage invariant, restricted to the
columns that exist: `assigned_worker_id` is non-null iff the status is
in-flight, and no two distinct in-flight tasks share a worker.  (The
spec's third conjunct, `current_task_id`, has no counterpart: the
`workers` table carries no such column.) -/
def claimC3Inv (s : DbState) : Prop :=
  (∀ t ∈ s.tasks,
    (t.assigned_worker_id ≠ none ↔
      (t.status = TaskStatus.assigned ∨ t.status = TaskStatus.running))) ∧
  (∀ t1 ∈ s.tasks, ∀ t2 ∈ s.tasks,
    (t1.status = TaskStatus.assigned ∨ t1.status = TaskStatus.running) →
    (t2.status = TaskStatus.assigned ∨ t2.status = TaskStatus.running) →
    t1.assigned_worker_id = t2.assigned_worker_id → t1 = t2)

/-- The total order the spec demands of queue pops: strictly higher
priority band first (`urgent > high > normal > low`), creation time
ascending within a band. -/
def queueLex (a b : Task) : Prop :=
  priorityOrder a.priority < priorityOrder b.priority ∨
    (priorityOrder a.priority = priorityOrder b.priority ∧ a.created_at ≤ b.created_at)

instance (a b : Task) : Decidable (queueLex a b) := by
  unfold queueLex
  infer_instance

/-- A freshly registered worker of the single modelled workspace. -/
def onlineWorker : Worker :=
  { id := 7, status := .online, total_tasks_completed := 0, last_seen := 0,
    capabilities := [] }

/-- Workspace state right after `onlineWorker` connected. -/
def chain0 : DbState :=
  { tasks := [], workers := [onlineWorker], queue := [] }

/-- Submit task 1 (no retries allowed). -/
def chain1 : DbState := createTask chain0 1 .normal 0 [] 10

/-- Scheduler tick: task 1 is assigned to worker 7. -/
def chain2 : DbState := tickStep chain1 11

/-- Worker 7 reports task 1 completed. -/
def chain3 : DbState := completeTask chain2 1 .completed (some "ok") none 20

/-- Submit task 2. -/
def chain4 : DbState := createTask chain3 2 .normal 0 [] 21

/-- Tick: task 2 is assigned to worker 7. -/
def chain5 : DbState := tickStep chain4 22

/-- The completion report for task 1 is delivered a second time:
`completeTask` has no terminal-status guard, so worker 7 is put back
`online` while task 2 is still in flight. -/
def chain6 : DbState := completeTask chain5 1 .completed (some "ok") none 23

/-- Submit task 3. -/
def chain7 : DbState := createTask chain6 3 .normal 0 [] 24

/-- Tick: task 3 is also assigned to worker 7. -/
def chain8 : DbState := tickStep chain7 25

/-- Pending task used for the assignment-race scenario. -/
def raceTask : Task :=
  { id := 1, priority := .normal, status := .pending, assigned_worker_id := none,
    result := none, error_message := none, retry_count := 0, max_retries := 0,
    filter_capabilities := [], created_at := 1, assigned_at := none,
    started_at := none, completed_at := none }

/-- State in which the scheduler is about to assign `raceTask`. -/
def raceState : DbState :=
  { tasks := [raceTask], workers := [onlineWorker], queue := [raceTask] }

/-- Submit a task with a retry budget of 2. -/
def retryS1 : DbState := createTask chain0 1 .normal 2 [] 10

/-- Tick: the task is assigned to worker 7. -/
def retryS2 : DbState := tickStep retryS1 11

/-- The worker reports failure; `completeTask` records `failed` and
leaves `retry_count` and the queue alone. -/
def retryS3 : DbState := completeTask retryS2 1 .failed none (some "boom") 20

/-- The separate `retryTask` call re-opens the task. -/
def retryS4 : DbState :=
  match retryTask retryS3 1 with
  | .ok s => s
  | .error _ => retryS3

/-- Tick: the re-opened task is assigned again. -/
def retryS5 : DbState := tickStep retryS4 30

/-- The worker reports success on the second attempt. -/
def retryS6 : DbState := completeTask retryS5 1 .completed (some "ok") none 40

/-- Task 1 completed once (first delivery of the result). -/
def dupS1 : DbState := completeTask chain2 1 .completed (some "ok") none 50

/-- The same `TASK_RESULT` delivered a second time. -/
def dupS2 : DbState := completeTask dupS1 1 .completed (some "ok") none 60

/-- An in-flight task held by worker 7, with retry budget left. -/
def staleTask : Task :=
  { id := 1, priority := .normal, status := .assigned, assigned_worker_id := some 7,
    result := none, error_message := none, retry_count := 0, max_retries := 3,
    filter_capabilities := [], created_at := 0, assigned_at := some 1,
    started_at := none, completed_at := none }

/-- Worker 7 is busy on `staleTask` and has stopped heartbeating. -/
def staleState : DbState :=
  { tasks := [staleTask], workers := [{ onlineWorker with status := .busy }],
    queue := [] }

/-- A pending task constructor for the queue-ordering scenario. -/
def plainTask (i : Nat) (p : Priority) (c : Nat) : Task :=
  { id := i, priority := p, status := .pending, assigned_worker_id := none,
    result := none, error_message := none, retry_count := 0, max_retries := 0,
    filter_capabilities := [], created_at := c, assigned_at := none,
    started_at := none, completed_at := none }

/-- The spec's scenario: submit `low, urgent, normal` in that order. -/
def scenarioSubmits : List Task :=
  [plainTask 1 .low 1, plainTask 2 .urgent 2, plainTask 3 .normal 3]

/-- An offline worker row, for the status-route scenario. -/
def offlineRow : WorkerRow :=
  { id := 1, status := "offline", last_seen := 0 }

/-- Two concurrent registration requests against a fresh
`max_uses = 1` code that expires at time 10. -/
def regSysPair : RegSystem :=
  { code := some { max_uses := 1, used_count := 0, expires_at := 10 },
    threads := [.start, .start] }

end Orch

namespace AdminApp

/-- The admin-webapp `CredentialStore`'s backing map, in insertion
order. -/
abbrev CredStore := List (String × String)

/-- JavaScript's `trim()`: drop whitespace from both ends.  (A
character-list implementation; `String.trim` itself is defined by
well-founded recursion on byte positions and does not reduce inside
the kernel.) -/
def strTrim (s : String) : String :=
  String.mk (((s.data.dropWhile Char.isWhitespace).reverse.dropWhile
    Char.isWhitespace).reverse)

/-- Collapse every maximal run of whitespace into one underscore: the
`replace(/\s+/g, '_')` part of the store's key normalisation.  The
flag records whether the previous character was whitespace. -/
def collapseWsAux : Bool → List Char → List Char
  | _, [] => []
  | prevWs, c :: rest =>
    if c.isWhitespace then
      (if prevWs then [] else ['_']) ++ collapseWsAux true rest
    else
      c :: collapseWsAux false rest

/-- `key.toLowerCase().trim().replace(/\s+/g, '_')` as used by
`CredentialStore.getCredential` and friends. -/
def normalizeKey (k : String) : String :=
  String.mk (collapseWsAux false (strTrim k.toLower).data)

/-- `CredentialStore.getAllCredentials`: the whole map, in insertion
order. -/
def getAllCredentials (store : CredStore) : CredStore :=
  store

/-- One iteration of `getCredentialsForWorker`'s loop: look the
normalised key up and, when present, assign it into the result object.
(Repeated requested keys re-assign the same value; the association list
keeps lookup semantics.) -/
def credFetchStep (store : CredStore) (acc : CredStore) (k : String) : CredStore :=
  match store.lookup (normalizeKey k) with
  | some v => acc ++ [(normalizeKey k, v)]
  | none => acc

/-- `CredentialStore.getCredentialsForWorker(requestedKeys = [])`:
everything when no keys are requested, otherwise only the requested
keys that exist. -/
def getCredentialsForWorker (store : CredStore) (requestedKeys : List String) :
    CredStore :=
  if requestedKeys.isEmpty then getAllCredentials store
  else requestedKeys.foldl (credFetchStep store) []

/-- The `workerInfo` payload of a `REGISTER_WORKER` message. -/
structure WorkerInfoMsg where
  name : Option String
  capabilities : Option (List String)
deriving DecidableEq, Repr

/-- An entry of the admin-webapp `WorkerManager.workers` map. -/
structure AdminWorker where
  id : String
  name : String
  capabilities : List String
  status : String
  registeredAt : Nat
  currentTask : Option String
deriving DecidableEq, Repr

/-- `workerInfo.name || 'Worker-' + workerId.slice(0, 8)`: a missing or
empty name falls back to the generated one. -/
def chosenName (info : WorkerInfoMsg) (freshId : String) : String :=
  match info.name with
  | some n => if n == "" then "Worker-" ++ freshId.take 8 else n
  | none => "Worker-" ++ freshId.take 8

/-- `WorkerManager.registerWorker`: build the worker record under a
fresh uuid (`freshId` stands for the `uuidv4()` draw) and store it
online.  The token argument of the source is ignored by the function
body. -/
def registerWorker (freshId : String) (now : Nat) (info : WorkerInfoMsg) :
    AdminWorker :=
  { id := freshId
    name := chosenName info freshId
    capabilities := info.capabilities.getD []
    status := "online"
    registeredAt := now
    currentTask := none }

/-- Reply of `MessageRouter.handleWorkerRegistration`. -/
inductive RegistrationReply
  | confirmed (workerId workerName : String)
  | errorReply (msg : String)
deriving DecidableEq, Repr

/-- `MessageRouter.handleWorkerRegistration`: reject only when
`!token || token.trim() === ''`; otherwise register and send
`REGISTRATION_CONFIRMED` with the fresh worker id. -/
def handleWorkerRegistration (token : String) (info : WorkerInfoMsg)
    (freshId : String) (now : Nat) : RegistrationReply × Option AdminWorker :=
  if token == "" || strTrim token == "" then
    (.errorReply "Invalid or missing token", none)
  else
    let w := registerWorker freshId now info
    (.confirmed w.id w.name, some w)

end AdminApp

namespace Orch

/-- Sequential registrations against a not-yet-expired code: each call
succeeds while `used_count < max_uses` and is refused with the
exhaustion error afterwards. -/
theorem runRegisterCalls_spec (now : Nat) :
    ∀ (k : Nat) (cc : ConnCode), now < cc.expires_at →
      (runRegisterCalls (some cc) now k).1 =
          some { cc with
                 used_count := cc.used_count + min k (cc.max_uses - cc.used_count) } ∧
      (runRegisterCalls (some cc) now k).2.count RegOutcome.success =
          min k (cc.max_uses - cc.used_count) ∧
      ∀ o ∈ (runRegisterCalls (some cc) now k).2,
        o = RegOutcome.success ∨ o = RegOutcome.exhausted := by
  intro k
  induction k with
  | zero =>
    intro cc hexp
    refine ⟨?_, ?_, ?_⟩ <;> simp [runRegisterCalls]
  | succ k ih =>
    intro cc hexp
    by_cases hC : cc.max_uses ≤ cc.used_count
    · have h0 : cc.max_uses - cc.used_count = 0 := Nat.sub_eq_zero_of_le hC
      have hreg : registerSequential (some cc) now = (some cc, RegOutcome.exhausted) := by
        simp [registerSequential, codeDecision, Nat.not_le.mpr hexp, hC]
      obtain ⟨ih1, ih2, ih3⟩ := ih cc hexp
      refine ⟨?_, ?_, ?_⟩
      · simpa [runRegisterCalls, hreg, h0] using ih1.trans (by simp [h0])
      · simp [runRegisterCalls, hreg, h0, List.count_cons]
        simpa [h0] using ih2
      · intro o ho
        simp [runRegisterCalls, hreg] at ho
        rcases ho with rfl | ho
        · exact Or.inr rfl
        · exact ih3 o ho
    · have hlt : cc.used_count < cc.max_uses := Nat.lt_of_not_le hC
      have hreg : registerSequential (some cc) now =
          (some { cc with used_count := cc.used_count + 1 }, RegOutcome.success) := by
        simp [registerSequential, codeDecision, consumeCode, Nat.not_le.mpr hexp, hC]
      obtain ⟨ih1, ih2, ih3⟩ := ih { cc with used_count := cc.used_count + 1 } hexp
      refine ⟨?_, ?_, ?_⟩
      · rw [show runRegisterCalls (some cc) now (k + 1) =
            ((runRegisterCalls (registerSequential (some cc) now).1 now k).1,
              (registerSequential (some cc) now).2 ::
                (runRegisterCalls (registerSequential (some cc) now).1 now k).2) from rfl]
        rw [hreg]
        simp only []
        rw [ih1]
        have harith : cc.used_count + 1 + min k (cc.max_uses - (cc.used_count + 1)) =
            cc.used_count + min (k + 1) (cc.max_uses - cc.used_count) := by omega
        simp [harith]
      · rw [show runRegisterCalls (some cc) now (k + 1) =
            ((runRegisterCalls (registerSequential (some cc) now).1 now k).1,
              (registerSequential (some cc) now).2 ::
                (runRegisterCalls (registerSequential (some cc) now).1 now k).2) from rfl]
        rw [hreg]
        rw [List.count_cons]
        simp only []
        rw [ih2]
        simp
        omega
      · intro o ho
        rw [show runRegisterCalls (some cc) now (k + 1) =
            ((runRegisterCalls (registerSequential (some cc) now).1 now k).1,
              (registerSequential (some cc) now).2 ::
                (runRegisterCalls (registerSequential (some cc) now).1 now k).2) from rfl] at ho
        rw [hreg] at ho
        simp at ho
        rcases ho with rfl | ho
        · exact Or.inl rfl
        · exact ih3 o ho

/-- Claim C1, counterexample: the consume-and-create step of
`POST /workers/connect` is a read followed by an unconditional
increment, not a single conditional update.  Interleaving two
registrations against a fresh `max_uses = 1` code (both validate
against the same snapshot, then both commit) lets both succeed and
drives `used_count` to 2, beyond `max_uses` — the claim promises
exactly one success and `used_count ≤ max_uses` in every reachable
state. -/
theorem C1_counterexample :
    (regRunSched regSysPair 0 [0, 1, 0, 1]).threads =
        [RegPhase.done RegOutcome.success, RegPhase.done RegOutcome.success] ∧
    (regRunSched regSysPair 0 [0, 1, 0, 1]).code =
        some { max_uses := 1, used_count := 2, expires_at := 10 } ∧
    ¬(2 ≤ 1) := ⟨rfl, rfl, by decide⟩

/-- Claim C1 (amended): registration fails with the invalid-code error
when the code is unknown or expired and with the exhaustion error when
`used_count ≥ max_uses`; under sequential (non-interleaved) execution
of `k` register calls against a code with `max_uses = N`, exactly
`min k N` succeed, every other call receives the exhaustion failure,
and `used_count` never exceeds `max_uses`.  The atomicity part of the
original claim is false (see the counterexample): concurrency can
exceed these bounds. -/
theorem C1_sequential_registration (cc : ConnCode) (now k : Nat)
    (hexp : now < cc.expires_at) (hinit : cc.used_count ≤ cc.max_uses) :
    (runRegisterCalls (some cc) now k).1 =
        some { cc with
               used_count := cc.used_count + min k (cc.max_uses - cc.used_count) } ∧
    (runRegisterCalls (some cc) now k).2.count RegOutcome.success =
        min k (cc.max_uses - cc.used_count) ∧
    cc.used_count + min k (cc.max_uses - cc.used_count) ≤ cc.max_uses ∧
    (∀ o ∈ (runRegisterCalls (some cc) now k).2,
        o ≠ RegOutcome.success → o = RegOutcome.exhausted) ∧
    registerSequential none now = (none, RegOutcome.invalidCode) ∧
    (∀ cc' : ConnCode, cc'.expires_at ≤ now →
        registerSequential (some cc') now = (some cc', RegOutcome.invalidCode)) := by
  obtain ⟨h1, h2, h3⟩ := runRegisterCalls_spec now k cc hexp
  refine ⟨h1, h2, by omega, ?_, rfl, ?_⟩
  · intro o ho hne
    rcases h3 o ho with rfl | rfl
    · exact absurd rfl hne
    · rfl
  · intro cc' h
    simp [registerSequential, codeDecision, h]

/-- Witness: three sequential registrations against a fresh
`max_uses = 2` code leave `used_count = min 3 2`. -/
theorem C1_sequential_registration_w :
    (runRegisterCalls (some { max_uses := 2, used_count := 0, expires_at := 100 }) 0 3).1 =
      some { max_uses := 2, used_count := 0 + min 3 (2 - 0), expires_at := 100 } :=
  (C1_sequential_registration
    { max_uses := 2, used_count := 0, expires_at := 100 } 0 3
    (by decide) (by decide)).1

/-- `UPDATE ... WHERE id = tid` commutes with looking the row up, for
any row transformer that preserves ids. -/
theorem find?_updateTask (tid : Nat) (f : Task → Task) (hf : ∀ u, (f u).id = u.id) :
    ∀ ts : List Task,
      (updateTask tid f ts).find? (fun u => u.id == tid) =
        ((ts.find? fun u => u.id == tid).map f)
  | [] => rfl
  | t :: ts => by
    by_cases h : t.id = tid
    · have hb : (t.id == tid) = true := by simpa using h
      simp [updateTask, List.find?, hb, hf]
    · have hb : (t.id == tid) = false := by simpa using h
      simpa [updateTask, List.find?, hb] using find?_updateTask tid f hf ts

/-- Worker analogue of `find?_updateTask`. -/
theorem find?_updateWorker (wid : Nat) (f : Worker → Worker) (hf : ∀ u, (f u).id = u.id) :
    ∀ ws : List Worker,
      (updateWorker wid f ws).find? (fun u => u.id == wid) =
        ((ws.find? fun u => u.id == wid).map f)
  | [] => rfl
  | w :: ws => by
    by_cases h : w.id = wid
    · have hb : (w.id == wid) = true := by simpa using h
      simp [updateWorker, List.find?, hb, hf]
    · have hb : (w.id == wid) = false := by simpa using h
      simpa [updateWorker, List.find?, hb] using find?_updateWorker wid f hf ws

/-- Claim C2, counterexample: the scheduler's pending check passes,
then the task is cancelled, and the subsequent assignment update of
`WorkerManager.assignTaskToWorker` — which carries no condition on the
current status — still overwrites the task to `assigned`.  The claim
promises the flip happens only if the status is still `pending` at the
moment of the update. -/
theorem C2_counterexample :
    taskStillPending raceState 1 = true ∧
    (getTask? (cancelTask raceState 1 3) 1).map Task.status =
        some TaskStatus.cancelled ∧
    (getTask? (assignUpdate (cancelTask raceState 1 3) 1 7 4) 1).map Task.status =
        some TaskStatus.assigned ∧
    (getTask? (assignUpdate (cancelTask raceState 1 3) 1 7 4) 1).map
        Task.assigned_worker_id = some (some 7) := ⟨rfl, rfl, rfl, rfl⟩

/-- Claim C2 (amended): the scheduler performs a separate
`status = 'pending'` read before assigning; when that read fails the
task is skipped with no assignment, and when it succeeds the
assignment update runs — but the update itself is unconditional on
status (last conjunct), so it is a read-then-write, not a
compare-and-swap. -/
theorem C2_check_then_write (s : DbState) (t : Task) (rest : List Task) (now : Nat)
    (hq : s.queue = t :: rest) :
    (taskStillPending s t.id = false → tickStep s now = { s with queue := rest }) ∧
    (taskStillPending s t.id = true →
        getAvailableWorkers s.workers t.filter_capabilities = [] →
        tickStep s now = s) ∧
    (∀ w l, taskStillPending s t.id = true →
        getAvailableWorkers s.workers t.filter_capabilities = w :: l →
        tickStep s now = { assignUpdate s t.id w.id now with queue := rest }) ∧
    (∀ s' tid wid m,
        getTask? (assignUpdate s' tid wid m) tid =
          (getTask? s' tid).map fun u =>
            { u with status := TaskStatus.assigned, assigned_worker_id := some wid,
                     assigned_at := some m }) := by
  refine ⟨?_, ?_, ?_, ?_⟩
  · intro hp
    simp [tickStep, hq, hp]
  · intro hp hw
    simp [tickStep, hq, hp, assignTaskToWorker, hw]
  · intro w l hp hw
    simp [tickStep, hq, hp, assignTaskToWorker, hw]
  · intro s' tid wid m
    exact find?_updateTask tid
      (fun u => { u with status := TaskStatus.assigned,
                         assigned_worker_id := some wid, assigned_at := some m })
      (fun u => rfl) s'.tasks

/-- Witness: in `raceState` the pending check passes and the head task
is assigned to the online worker. -/
theorem C2_check_then_write_w :
    tickStep raceState 11 =
      { assignUpdate raceState raceTask.id onlineWorker.id 11 with queue := [] } :=
  (C2_check_then_write raceState raceTask [] 11 rfl).2.2.1 onlineWorker [] rfl rfl

/-- Task submission preserves the in-flight linkage: the new row is
`pending`. -/
theorem inFlight_createTask (s : DbState) (tid : Nat) (prio : Priority) (mr : Nat)
    (caps : List String) (now : Nat) (h : inFlightHasWorker s) :
    inFlightHasWorker (createTask s tid prio mr caps now) := by
  intro t ht hst
  rcases List.mem_append.mp ht with h1 | h2
  · exact h t h1 hst
  · rcases List.mem_singleton.mp h2 with rfl
    simp at hst

/-- A scheduler step preserves the in-flight linkage: the only status
it writes is `assigned`, together with a worker id. -/
theorem inFlight_tickStep (s : DbState) (now : Nat) (h : inFlightHasWorker s) :
    inFlightHasWorker (tickStep s now) := by
  rcases hq : s.queue with _ | ⟨t, rest⟩
  · simpa [tickStep, hq] using h
  · by_cases hp : taskStillPending s t.id
    · rcases hw : getAvailableWorkers s.workers t.filter_capabilities with _ | ⟨w, l⟩
      · simpa [tickStep, hq, hp, assignTaskToWorker, hw] using h
      · have he : tickStep s now = { assignUpdate s t.id w.id now with queue := rest } := by
          simp [tickStep, hq, hp, assignTaskToWorker, hw]
        rw [he]
        intro u hu hst
        obtain ⟨v, hv, hvu⟩ := List.mem_map.mp hu
        subst hvu
        by_cases hid : (v.id == t.id) = true
        · simp [hid]
        · have hid' : (v.id == t.id) = false := by simpa using hid
          simp only [hid', Bool.false_eq_true, if_false] at hst ⊢
          exact h v hv hst
    · simpa [tickStep, hq, hp] using h

/-- Completion with a terminal status preserves the in-flight linkage:
the touched row leaves the in-flight statuses. -/
theorem inFlight_completeTask (s : DbState) (tid : Nat) (st : TaskStatus)
    (res err : Option String) (now : Nat) (hterm : st = .completed ∨ st = .failed)
    (h : inFlightHasWorker s) :
    inFlightHasWorker (completeTask s tid st res err now) := by
  rcases hT : getTask? s tid with _ | t0
  · simpa [completeTask, hT] using h
  · have htasks : (completeTask s tid st res err now).tasks =
        updateTask tid
          (fun u => { u with status := st, result := res, error_message := err,
                             completed_at := some now }) s.tasks := by
      unfold completeTask
      rw [hT]
      split
      · rename_i heq
        simp at heq
      · rename_i t1 heq
        obtain rfl : t0 = t1 := by injection heq
        split <;> (try split) <;> rfl
    intro u hu hst
    rw [htasks] at hu
    obtain ⟨v, hv, hvu⟩ := List.mem_map.mp hu
    subst hvu
    by_cases hid : (v.id == tid) = true
    · simp only [hid, if_true] at hst
      rcases hterm with rfl | rfl <;> simp at hst
    · have hid' : (v.id == tid) = false := by simpa using hid
      simp only [hid', Bool.false_eq_true, if_false] at hst ⊢
      exact h v hv hst

/-- Cancellation preserves the in-flight linkage: the touched row
becomes `cancelled`. -/
theorem inFlight_cancelTask (s : DbState) (tid now : Nat) (h : inFlightHasWorker s) :
    inFlightHasWorker (cancelTask s tid now) := by
  rcases hF : s.tasks.find? (fun t =>
      t.id == tid && (t.status == TaskStatus.pending || t.status == TaskStatus.assigned))
    with _ | t0
  · simpa [cancelTask, hF] using h
  · have htasks : (cancelTask s tid now).tasks = s.tasks.map (fun u =>
        if u.id == tid && (u.status == TaskStatus.pending || u.status == TaskStatus.assigned) then
          { u with status := .cancelled, error_message := some "Cancelled by user",
                   completed_at := some now }
        else u) := by
      simp [cancelTask, hF]
    intro u hu hst
    rw [htasks] at hu
    obtain ⟨v, hv, hvu⟩ := List.mem_map.mp hu
    subst hvu
    by_cases hid : (v.id == tid &&
        (v.status == TaskStatus.pending || v.status == TaskStatus.assigned)) = true
    · simp only [hid, if_true] at hst
      simp at hst
    · have hid' : (v.id == tid &&
          (v.status == TaskStatus.pending || v.status == TaskStatus.assigned)) = false := by
        simpa using hid
      simp only [hid', Bool.false_eq_true, if_false] at hst ⊢
      exact h v hv hst

/-- Worker loss preserves the in-flight linkage: the worker's in-flight
rows become `failed`. -/
theorem inFlight_setWorkerOffline (s : DbState) (wid now : Nat)
    (h : inFlightHasWorker s) :
    inFlightHasWorker (setWorkerOffline s wid now) := by
  intro u hu hst
  obtain ⟨v, hv, hvu⟩ := List.mem_map.mp hu
  subst hvu
  by_cases hid : (v.assigned_worker_id == some wid &&
      (v.status == TaskStatus.assigned || v.status == TaskStatus.running)) = true
  · simp only [hid, if_true] at hst
    simp at hst
  · have hid' : (v.assigned_worker_id == some wid &&
        (v.status == TaskStatus.assigned || v.status == TaskStatus.running)) = false := by
      simpa using hid
    simp only [hid', Bool.false_eq_true, if_false] at hst ⊢
    exact h v hv hst

/-- Claim C3, counterexample: a reachable state (submit, assign,
complete, submit, assign, duplicate completion report, submit, assign)
in which a `completed` task still carries its `assigned_worker_id` —
`completeTask` never clears the column — and worker 7 holds two
in-flight tasks at once.  The spec's `current_task_id` conjunct has no
counterpart at all: the `workers` table carries no such column. -/
theorem C3_counterexample : Reachable chain8 ∧ ¬claimC3Inv chain8 := by
  constructor
  · exact Reachable.tick 25 (Reachable.submit 3 .normal 0 [] 24
      (Reachable.complete 1 .completed (some "ok") none 23 (Or.inl rfl)
        (Reachable.tick 22 (Reachable.submit 2 .normal 0 [] 21
          (Reachable.complete 1 .completed (some "ok") none 20 (Or.inl rfl)
            (Reachable.tick 11 (Reachable.submit 1 .normal 0 [] 10
              (Reachable.init [onlineWorker]))))))))
  · unfold claimC3Inv
    decide

/-- Claim C3 (amended): in every state reachable by submit,
tick/assign, completeTask (with a terminal status), cancel, and
worker-lost operations, a task whose status is `assigned` or `running`
has a non-null `assigned_worker_id`.  The converse is false (terminal
tasks keep their stale worker id), a worker can accumulate several
in-flight tasks through duplicate completion reports, and no
`current_task_id` column exists — see the counterexample. -/
theorem C3_inflight_invariant : ∀ s : DbState, Reachable s → inFlightHasWorker s := by
  intro s h
  induction h with
  | init ws => intro t ht hst; simp at ht
  | submit tid prio mr caps now _ ih => exact inFlight_createTask _ tid prio mr caps now ih
  | tick now _ ih => exact inFlight_tickStep _ now ih
  | complete tid st res err now hterm _ ih =>
    exact inFlight_completeTask _ tid st res err now hterm ih
  | cancel tid now _ ih => exact inFlight_cancelTask _ tid now ih
  | workerLost wid now _ ih => exact inFlight_setWorkerOffline _ wid now ih

/-- Witness: the invariant holds at the concrete reachable state
`chain8`. -/
theorem C3_inflight_invariant_w : inFlightHasWorker chain8 :=
  C3_inflight_invariant chain8
    (Reachable.tick 25 (Reachable.submit 3 .normal 0 [] 24
      (Reachable.complete 1 .completed (some "ok") none 23 (Or.inl rfl)
        (Reachable.tick 22 (Reachable.submit 2 .normal 0 [] 21
          (Reachable.complete 1 .completed (some "ok") none 20 (Or.inl rfl)
            (Reachable.tick 11 (Reachable.submit 1 .normal 0 [] 10
              (Reachable.init [onlineWorker])))))))))

/-- `addTaskToQueue` splices the new task exactly at the boundary:
after every queued entry whose effective rank (`|| 2` fallback
included) is at most the new task's, and before the first entry of
strictly larger effective rank. -/
theorem insertByPriority_split (t : Task) :
    ∀ q : List Task,
      insertByPriority q t =
        q.takeWhile
            (fun x => !decide (effectiveRank t.priority < effectiveRank x.priority)) ++
          t :: q.dropWhile
            (fun x => !decide (effectiveRank t.priority < effectiveRank x.priority))
  | [] => rfl
  | x :: rest => by
    by_cases h : effectiveRank t.priority < effectiveRank x.priority
    · simp [insertByPriority, List.takeWhile_cons, List.dropWhile_cons, h]
    · simp only [insertByPriority, List.takeWhile_cons, List.dropWhile_cons,
        decide_eq_true_eq, h, decide_False, Bool.not_false, if_true, List.cons_append]
      exact congrArg (x :: ·) (insertByPriority_split t rest)

/-- `retryTask` on a row with retry budget left: the row is reset to
`pending` with `retry_count + 1` and a cleared assignment, and the
reset row is re-enqueued through `addTaskToQueue`. -/
theorem retryTask_ok (s : DbState) (tid : Nat) (t : Task)
    (ht : getTask? s tid = some t) (hlt : t.retry_count < t.max_retries) :
    retryTask s tid =
      Except.ok { s with tasks := updateTask tid retryReset s.tasks,
                         queue := insertByPriority s.queue (retryReset t) } := by
  have hguard : ¬(t.max_retries ≤ t.retry_count) := by omega
  have hfind : (updateTask tid retryReset s.tasks).find? (fun u => u.id == tid) =
      some (retryReset t) := by
    rw [find?_updateTask tid retryReset (fun u => rfl) s.tasks]
    rw [show (s.tasks.find? fun u => u.id == tid) = getTask? s tid from rfl, ht]
    rfl
  simp only [retryTask]
  rw [ht]
  simp only [if_neg hguard]
  rw [hfind]

/-- Claim C4, counterexample: worker 7 reports the task (budget
`max_retries = 2`, `retry_count = 0`) as failed; `completeTask` leaves
it terminally `failed` with `retry_count = 0` and does not re-enqueue
it — the claim promises an automatic increment, reset to `pending`,
and re-enqueue. -/
theorem C4_counterexample :
    (getTask? retryS3 1).map Task.status = some TaskStatus.failed ∧
    (getTask? retryS3 1).map Task.retry_count = some 0 ∧
    (getTask? retryS3 1).map Task.max_retries = some 2 ∧
    retryS3.queue = [] := by decide

/-- Claim C4 (amended): `completeTask` itself never retries; retrying
is the separate `retryTask` call, which — while
`retry_count < max_retries` — increments the counter, resets the row
to `pending` with a cleared assignment, and re-enqueues it through
`addTaskToQueue`, i.e. before the first queued entry of strictly
larger *effective* rank (`priorityOrder[p] || 2`) and after everything
else (first conjunct).  Because the falsy-`0` fallback collapses
`urgent` to rank 2, a re-enqueued urgent task lands after queued
`high` (and `normal`) entries, not at the tail of the urgent band
(second conjunct).  With `retryTask` invoked after the failure, a task
that fails once and then completes ends `completed` with
`retry_count = 1` (last conjunct, on the concrete run). -/
theorem C4_retry_semantics :
    (∀ (q : List Task) (t : Task),
        insertByPriority q t =
          q.takeWhile
              (fun x => !decide (effectiveRank t.priority < effectiveRank x.priority)) ++
            t :: q.dropWhile
              (fun x => !decide (effectiveRank t.priority < effectiveRank x.priority))) ∧
    (insertByPriority [plainTask 9 .high 1] (plainTask 8 .urgent 0) =
        [plainTask 9 .high 1, plainTask 8 .urgent 0]) ∧
    (∀ (s : DbState) (tid : Nat) (t : Task),
        getTask? s tid = some t → t.retry_count < t.max_retries →
        retryTask s tid =
          Except.ok { s with tasks := updateTask tid retryReset s.tasks,
                             queue := insertByPriority s.queue (retryReset t) }) ∧
    ((getTask? retryS6 1).map Task.status = some TaskStatus.completed ∧
     (getTask? retryS6 1).map Task.retry_count = some 1) :=
  ⟨fun q t => insertByPriority_split t q, by decide, retryTask_ok, by decide⟩

/-- The `failed` row of `retryS3`, spelled out. -/
def failedRow : Task :=
  { id := 1, priority := .normal, status := .failed, assigned_worker_id := some 7,
    result := none, error_message := some "boom", retry_count := 0, max_retries := 2,
    filter_capabilities := [], created_at := 10, assigned_at := some 11,
    started_at := none, completed_at := some 20 }

/-- Witness: `retryTask` applied to the concrete failed run. -/
theorem C4_retry_semantics_w :
    retryTask retryS3 1 =
      Except.ok { retryS3 with tasks := updateTask 1 retryReset retryS3.tasks,
                               queue := insertByPriority retryS3.queue (retryReset failedRow) } :=
  C4_retry_semantics.2.2.1 retryS3 1 failedRow (by decide) (by decide)

/-- Claim C5, counterexample: worker 7 holds an in-flight task with
retry budget left and stops heartbeating; the periodic sweep marks the
worker `offline` but leaves the tasks table untouched — the task stays
`assigned` instead of returning to `pending`, and no `failed`
transition with exhausted budget happens either. -/
theorem C5_counterexample :
    (sweep staleState [(7, 0)] 400000 300000).workers =
        [{ onlineWorker with status := WorkerStatus.offline }] ∧
    (sweep staleState [(7, 0)] 400000 300000).tasks = staleState.tasks ∧
    (getTask? (sweep staleState [(7, 0)] 400000 300000) 1).map Task.status =
        some TaskStatus.assigned ∧
    staleTask.retry_count < staleTask.max_retries := by decide

/-- Claim C5 (amended): the heartbeat sweep only demotes stale workers
to `offline` and never touches tasks or the queue; in-flight tasks are
failed — with the disconnect message, regardless of remaining retry
budget, and never re-queued to `pending` — only by the socket
disconnect path `setWorkerOffline`/`cancelWorkerTasks`. -/
theorem C5_sweep_behaviour (s : DbState) (hbs : List (Nat × Nat)) (now thresh wid : Nat) :
    (sweep s hbs now thresh).tasks = s.tasks ∧
    (sweep s hbs now thresh).queue = s.queue ∧
    (∀ w ∈ s.workers, heartbeatStale hbs now thresh w.id = true →
        { w with status := WorkerStatus.offline } ∈ (sweep s hbs now thresh).workers) ∧
    (∀ t ∈ s.tasks, t.assigned_worker_id = some wid →
        t.status = TaskStatus.assigned ∨ t.status = TaskStatus.running →
        { t with status := TaskStatus.failed,
                 error_message := some "Worker disconnected unexpectedly",
                 completed_at := some now } ∈ (setWorkerOffline s wid now).tasks) := by
  refine ⟨rfl, rfl, ?_, ?_⟩
  · intro w hw hstale
    refine List.mem_map.mpr ⟨w, hw, ?_⟩
    by_cases hoff : w.status = WorkerStatus.offline
    · have hb : (w.status == WorkerStatus.offline) = true := by simp [hoff]
      cases w
      simp_all
    · have hb : (w.status == WorkerStatus.offline) = false := by simpa using hoff
      simp [hstale, hb]
  · intro t ht hwid hst
    simp only [setWorkerOffline, cancelWorkerTasks]
    refine List.mem_map.mpr ⟨t, ht, ?_⟩
    have h1 : (t.assigned_worker_id == some wid) = true := by simp [hwid]
    have h2 : (t.status == TaskStatus.assigned || t.status == TaskStatus.running) = true := by
      rcases hst with h | h <;> simp [h]
    simp [h1, h2]

/-- Witness: the in-flight task of worker 7 is marked failed by the
disconnect path of the concrete stale state. -/
theorem C5_sweep_behaviour_w :
    { staleTask with status := TaskStatus.failed,
                     error_message := some "Worker disconnected unexpectedly",
                     completed_at := some 400000 } ∈
      (setWorkerOffline staleState 7 400000).tasks :=
  (C5_sweep_behaviour staleState [(7, 0)] 400000 300000 7).2.2.2 staleTask
    (by decide) rfl (Or.inl rfl)

/-- Claim C6 (code bug): the code's own priority map assigns `urgent`
the top rank 0, but `addTaskToQueue` reads it through
`priorityOrder[task.priority] || 2` and JavaScript's falsy `0`
collapses it to 2.  At the failing input — an urgent task submitted at
time 1, then a high task at time 2 — the queue pops the high task
before the urgent one, and the queue violates the claimed total order
`queueLex` (urgent before high before normal before low, FIFO within a
band).  The spec's own `low, urgent, normal` scenario still comes out
`urgent, normal, low` only because `low` and `normal` happen to
straddle the corrupted rank. -/
theorem C6_urgent_rank_bug :
    priorityOrder Priority.urgent = 0 ∧
    effectiveRank Priority.urgent = 2 ∧
    effectiveRank Priority.high = 1 ∧
    effectiveRank Priority.normal = 2 ∧
    buildQueue [plainTask 1 .urgent 1, plainTask 2 .high 2] =
        [plainTask 2 .high 2, plainTask 1 .urgent 1] ∧
    ¬List.Pairwise queueLex (buildQueue [plainTask 1 .urgent 1, plainTask 2 .high 2]) ∧
    buildQueue scenarioSubmits =
        [plainTask 2 .urgent 2, plainTask 3 .normal 3, plainTask 1 .low 1] := by
  decide

/-- `completeTask` with status `completed` on a row that carries a
worker: the two unconditional updates it performs, spelled out. -/
theorem completeTask_completed (s : DbState) (tid wid : Nat) (t : Task)
    (res err : Option String) (now : Nat)
    (ht : getTask? s tid = some t) (hw : t.assigned_worker_id = some wid) :
    completeTask s tid TaskStatus.completed res err now =
      { s with
        tasks := updateTask tid
          (fun u => { u with status := TaskStatus.completed, result := res,
                             error_message := err, completed_at := some now }) s.tasks
        workers := updateWorker wid
          (fun w => { w with status := WorkerStatus.online,
                             total_tasks_completed := w.total_tasks_completed + 1 })
          s.workers } := by
  simp only [completeTask, ht, hw]
  rfl

/-- Claim C7, counterexample: delivering the same successful
`TASK_RESULT` twice re-runs the unguarded update — `completed_at`
moves from 50 to 60 and worker 7's completed-task counter climbs from
1 to 2 — where the claim promises a strict no-op. -/
theorem C7_counterexample :
    (getWorker? dupS1 7).map Worker.total_tasks_completed = some 1 ∧
    (getWorker? dupS2 7).map Worker.total_tasks_completed = some 2 ∧
    (getTask? dupS1 1).map Task.completed_at = some (some 50) ∧
    (getTask? dupS2 1).map Task.completed_at = some (some 60) := by decide

/-- Claim C7 (amended): `completeTask` has no terminal-status guard.
Re-delivering the same successful result leaves the task's `status`,
`result`, `error_message` and `retry_count` at the same values but
refreshes `completed_at` to the second delivery time and increments
the worker's completed-task counter a second time. -/
theorem C7_redelivery (s : DbState) (tid wid : Nat) (t : Task) (w : Worker)
    (res err : Option String) (n1 n2 : Nat)
    (ht : getTask? s tid = some t) (hw : t.assigned_worker_id = some wid)
    (hwf : getWorker? s wid = some w) :
    getTask? (completeTask (completeTask s tid TaskStatus.completed res err n1)
        tid TaskStatus.completed res err n2) tid =
      some { t with status := TaskStatus.completed, result := res,
                    error_message := err, completed_at := some n2 } ∧
    getWorker? (completeTask (completeTask s tid TaskStatus.completed res err n1)
        tid TaskStatus.completed res err n2) wid =
      some { w with status := WorkerStatus.online,
                    total_tasks_completed := w.total_tasks_completed + 2 } := by
  have hs1 := completeTask_completed s tid wid t res err n1 ht hw
  have ht1 : getTask? (completeTask s tid TaskStatus.completed res err n1) tid =
      some { t with status := TaskStatus.completed, result := res,
                    error_message := err, completed_at := some n1 } := by
    rw [hs1]
    show (updateTask tid
        (fun u => { u with status := TaskStatus.completed, result := res,
                           error_message := err, completed_at := some n1 })
        s.tasks).find? (fun u => u.id == tid) = _
    rw [find?_updateTask tid
        (fun u => { u with status := TaskStatus.completed, result := res,
                           error_message := err, completed_at := some n1 })
        (fun u => rfl) s.tasks,
      show (s.tasks.find? fun u => u.id == tid) = getTask? s tid from rfl, ht]
    rfl
  have hw1 : ({ t with
      status := TaskStatus.completed, result := res,
      error_message := err, completed_at := some n1 } : Task).assigned_worker_id =
      some wid := hw
  have hwf1 : getWorker? (completeTask s tid TaskStatus.completed res err n1) wid =
      some { w with status := WorkerStatus.online,
                    total_tasks_completed := w.total_tasks_completed + 1 } := by
    rw [hs1]
    show (updateWorker wid
        (fun v => { v with status := WorkerStatus.online,
                           total_tasks_completed := v.total_tasks_completed + 1 })
        s.workers).find? (fun u => u.id == wid) = _
    rw [find?_updateWorker wid
        (fun v => { v with status := WorkerStatus.online,
                           total_tasks_completed := v.total_tasks_completed + 1 })
        (fun u => rfl) s.workers,
      show (s.workers.find? fun u => u.id == wid) = getWorker? s wid from rfl, hwf]
    rfl
  have hs2 := completeTask_completed (completeTask s tid TaskStatus.completed res err n1)
    tid wid _ res err n2 ht1 hw1
  constructor
  · rw [hs2]
    show (updateTask tid
        (fun u => { u with status := TaskStatus.completed, result := res,
                           error_message := err, completed_at := some n2 })
        (completeTask s tid TaskStatus.completed res err n1).tasks).find?
        (fun u => u.id == tid) = _
    rw [find?_updateTask tid
        (fun u => { u with status := TaskStatus.completed, result := res,
                           error_message := err, completed_at := some n2 })
        (fun u => rfl) (completeTask s tid TaskStatus.completed res err n1).tasks,
      show ((completeTask s tid TaskStatus.completed res err n1).tasks.find?
          fun u => u.id == tid) =
        getTask? (completeTask s tid TaskStatus.completed res err n1) tid from rfl, ht1]
    rfl
  · rw [hs2]
    show (updateWorker wid
        (fun v => { v with status := WorkerStatus.online,
                           total_tasks_completed := v.total_tasks_completed + 1 })
        (completeTask s tid TaskStatus.completed res err n1).workers).find?
        (fun u => u.id == wid) = _
    rw [find?_updateWorker wid
        (fun v => { v with status := WorkerStatus.online,
                           total_tasks_completed := v.total_tasks_completed + 1 })
        (fun u => rfl) (completeTask s tid TaskStatus.completed res err n1).workers,
      show ((completeTask s tid TaskStatus.completed res err n1).workers.find?
          fun u => u.id == wid) =
        getWorker? (completeTask s tid TaskStatus.completed res err n1) wid from rfl, hwf1]
    rfl

/-- Witness: the redelivery equations at the concrete duplicate run. -/
theorem C7_redelivery_w :
    getTask? dupS2 1 =
      some { raceTask with status := TaskStatus.completed, result := some "ok",
                           error_message := none, completed_at := some 60,
                           assigned_worker_id := some 7, created_at := 10,
                           assigned_at := some 11 } ∧
    getWorker? dupS2 7 =
      some { onlineWorker with status := WorkerStatus.online,
                               total_tasks_completed := 0 + 2 } :=
  C7_redelivery chain2 1 7
    { raceTask with status := TaskStatus.assigned, assigned_worker_id := some 7,
                    created_at := 10, assigned_at := some 11 }
    { onlineWorker with status := WorkerStatus.busy }
    (some "ok") none 50 60 (by decide) rfl (by decide)

/-- Claim C9, counterexample: the stored status is `offline`, the
request asks for `busy`, and the route answers 200 and stores `busy`;
a follow-up request carrying the string `not-a-status` — outside the
worker state machine entirely — is likewise stored with a 200 reply.
No `InvalidTransition` (or any validation) rejection exists anywhere
on the path. -/
theorem C9_counterexample :
    putWorkerStatus [offlineRow] 1 1 "busy" 99 =
      ([{ offlineRow with status := "busy", last_seen := 99 }],
        StatusUpdateResult.ok "busy") ∧
    putWorkerStatus [{ offlineRow with status := "busy", last_seen := 99 }]
        1 1 "not-a-status" 100 =
      ([{ offlineRow with status := "not-a-status", last_seen := 100 }],
        StatusUpdateResult.ok "not-a-status") := by decide

/-- Claim C9 (amended): `PUT /workers/:id/status` checks only that the
authenticated worker matches the path id (403 otherwise); the
requested status — any string, since the handler never calls
`validationResult` and the column has no CHECK constraint — is stored
unconditionally with a 200 reply, whatever the previous status was.
There is no transition validation and no `InvalidTransition` error. -/
theorem C9_no_transition_check (ws : List WorkerRow) (auth path now : Nat)
    (str : String) :
    (auth ≠ path → putWorkerStatus ws auth path str now =
        (ws, StatusUpdateResult.forbidden)) ∧
    (auth = path → putWorkerStatus ws auth path str now =
        (ws.map fun w =>
          if w.id == path then { w with status := str, last_seen := now } else w,
          StatusUpdateResult.ok str)) := by
  constructor
  · intro hne
    simp [putWorkerStatus, hne]
  · intro heq
    subst heq
    simp [putWorkerStatus]

/-- Witness: the offline worker is stored as `busy` on request. -/
theorem C9_no_transition_check_w :
    putWorkerStatus [offlineRow] 1 1 "busy" 99 =
      ([offlineRow].map fun w =>
        if w.id == 1 then { w with status := "busy", last_seen := 99 } else w,
        StatusUpdateResult.ok "busy") :=
  (C9_no_transition_check [offlineRow] 1 1 99 "busy").2 rfl

end Orch

namespace AdminApp

/-- Membership of the accumulator built by `getCredentialsForWorker`'s
loop: a pair is collected exactly when its key is a normalised
requested key that the store holds with that value. -/
theorem foldl_credFetchStep (store : CredStore) :
    ∀ (req : List String) (acc : CredStore) (k v : String),
      ((k, v) ∈ req.foldl (credFetchStep store) acc ↔
        (k, v) ∈ acc ∨ (k ∈ req.map normalizeKey ∧ store.lookup k = some v))
  | [], acc, k, v => by simp
  | r :: rest, acc, k, v => by
    rw [List.foldl_cons, foldl_credFetchStep store rest (credFetchStep store acc r) k v]
    rcases hl : store.lookup (normalizeKey r) with _ | v'
    · simp only [credFetchStep, hl, List.map_cons, List.mem_cons]
      constructor
      · rintro (h | ⟨h1, h2⟩)
        · exact Or.inl h
        · exact Or.inr ⟨Or.inr h1, h2⟩
      · rintro (h | ⟨h1 | h1, h2⟩)
        · exact Or.inl h
        · subst h1
          rw [hl] at h2
          cases h2
        · exact Or.inr ⟨h1, h2⟩
    · simp only [credFetchStep, hl]
      rw [List.mem_append, List.mem_singleton]
      simp only [Prod.mk.injEq, List.map_cons, List.mem_cons]
      constructor
      · rintro ((h | ⟨hk, hv⟩) | ⟨h1, h2⟩)
        · exact Or.inl h
        · subst hk
          subst hv
          exact Or.inr ⟨Or.inl rfl, hl⟩
        · exact Or.inr ⟨Or.inr h1, h2⟩
      · rintro (h | ⟨h1 | h1, h2⟩)
        · exact Or.inl (Or.inl h)
        · subst h1
          rw [hl] at h2
          injection h2 with h3
          exact Or.inl (Or.inr ⟨rfl, h3.symm⟩)
        · exact Or.inr ⟨h1, h2⟩

/-- Claim C8 (confirmed): with no requested keys the broker returns the
tenant's full credential set; with requested keys it returns exactly
the store restricted to the (normalised) requested keys that exist —
missing keys are simply absent, never an error. -/
theorem C8_credential_intersection :
    (∀ store : CredStore, getCredentialsForWorker store [] = getAllCredentials store) ∧
    (∀ (store : CredStore) (k0 : String) (ks : List String) (k v : String),
        ((k, v) ∈ getCredentialsForWorker store (k0 :: ks) ↔
          (k ∈ (k0 :: ks).map normalizeKey ∧ store.lookup k = some v))) := by
  constructor
  · intro store
    rfl
  · intro store k0 ks k v
    have h := foldl_credFetchStep store (k0 :: ks) [] k v
    simpa [getCredentialsForWorker] using h

/-- Witness: the intersection equivalence at a concrete store and
request. -/
theorem C8_credential_intersection_w :
    (("google_username", "a") ∈
        getCredentialsForWorker [("google_username", "a"), ("linkedin_password", "b")]
          ["Google Username", "missing"]) ↔
      ("google_username" ∈ (["Google Username", "missing"].map normalizeKey) ∧
        ([("google_username", "a"), ("linkedin_password", "b")] : CredStore).lookup
          "google_username" = some "a") :=
  C8_credential_intersection.2 [("google_username", "a"), ("linkedin_password", "b")]
    "Google Username" ["missing"] "google_username" "a"

/-- A token that is non-empty after trimming passes the only guard of
`handleWorkerRegistration`. -/
theorem token_guard_false {t : String} (h : strTrim t ≠ "") :
    (t == "" || strTrim t == "") = false := by
  have h1 : t ≠ "" := by
    intro he
    apply h
    rw [he]
    rfl
  have hb1 : (t == "") = false := beq_eq_false_iff_ne.mpr h1
  have hb2 : (strTrim t == "") = false := beq_eq_false_iff_ne.mpr h
  rw [hb1, hb2]
  rfl

/-- Claim C10 (confirmed): any `REGISTER_WORKER` whose token is
non-empty after trimming is accepted with a `REGISTRATION_CONFIRMED`
carrying the fresh worker id, and the outcome does not depend on the
token's value — two runs differing only in their (non-empty) tokens
coincide, so expired or never-issued tokens are accepted alike. -/
theorem C10_token_independent (t1 t2 : String) (info : WorkerInfoMsg) (fid : String)
    (now : Nat) (h1 : strTrim t1 ≠ "") (h2 : strTrim t2 ≠ "") :
    handleWorkerRegistration t1 info fid now = handleWorkerRegistration t2 info fid now ∧
    handleWorkerRegistration t1 info fid now =
      (RegistrationReply.confirmed fid (registerWorker fid now info).name,
        some (registerWorker fid now info)) := by
  have g1 := token_guard_false h1
  have g2 := token_guard_false h2
  constructor
  · simp only [handleWorkerRegistration, g1]
    rw [g2]
  · simp only [handleWorkerRegistration, g1]
    rfl

/-- Witness: a plausible token and a bogus one produce the identical
successful registration. -/
theorem C10_token_independent_w :
    (handleWorkerRegistration "valid-token" { name := none, capabilities := none }
        "uuid-1" 5 =
      handleWorkerRegistration "expired-or-bogus" { name := none, capabilities := none }
        "uuid-1" 5) ∧
    handleWorkerRegistration "valid-token" { name := none, capabilities := none }
        "uuid-1" 5 =
      (RegistrationReply.confirmed "uuid-1"
          (registerWorker "uuid-1" 5 { name := none, capabilities := none }).name,
        some (registerWorker "uuid-1" 5 { name := none, capabilities := none })) :=
  C10_token_independent "valid-token" "expired-or-bogus"
    { name := none, capabilities := none } "uuid-1" 5
    (by rw [strTrim]; decide) (by rw [strTrim]; decide)

end AdminApp
